import Mathlib

/-!
Verification development for the microcenter_scraper repository.

The repository consists of a MySQL schema (stores, gpus, products,
price_history) and a browser front-end (app.js).  The definitions below are a
shallow embedding of that code: the relational operations implement the
uniqueness and foreign-key actions declared in the schema DDL, the front-end
functions are direct translations of the corresponding JavaScript functions,
and the server-side scrape-job controller (whose Python source is not part of
the repository snapshot) is modelled from the specification.
-/

/-! ## JavaScript string primitives

Boolean substring test used to model `String.prototype.includes` and the
string falsiness rules of JavaScript (`null`/`undefined`/empty string are
falsy; every other string is truthy). -/

/-- listStartsWith hay sub is true when sub is an initial segment of hay. -/
def listStartsWith : List Char → List Char → Bool
  | _, [] => true
  | [], _ :: _ => false
  | a :: as, b :: bs => a == b && listStartsWith as bs

/-- listIncludes hay sub is true when sub occurs contiguously inside hay. -/
def listIncludes : List Char → List Char → Bool
  | [], sub => sub.isEmpty
  | a :: as, sub => listStartsWith (a :: as) sub || listIncludes as sub

/-- Model of the JavaScript expression hay.includes(sub). -/
def jsIncludes (hay sub : String) : Bool :=
  listIncludes hay.data sub.data

/-- Model of the JavaScript expression s.toLowerCase() (character-wise ASCII
case mapping, which covers every string this application handles). -/
def jsToLower (s : String) : String := ⟨s.data.map Char.toLower⟩

/-- Model of the JavaScript expression s.toUpperCase(). -/
def jsToUpper (s : String) : String := ⟨s.data.map Char.toUpper⟩

/-- Model of the JavaScript falsiness test on a nullable string field:
null/undefined and the empty string are falsy. -/
def jsFalsy : Option String → Bool
  | none => true
  | some s => s == ""

/-- Model of the JavaScript expression (v || dflt) on a nullable string. -/
def jsOr (v : Option String) (dflt : String) : String :=
  match v with
  | none => dflt
  | some s => if s == "" then dflt else s

/-- Model of the JavaScript expression (a || b) where both operands are
nullable strings (used for data.message || data.error). -/
def jsOrElse (a b : Option String) : Option String :=
  if jsFalsy a then b else a

namespace Schema

/-! ## Relational schema (src/unnamed/part_000)

Row types for the four tables, with the column types of the DDL rendered in
Lean (INT and BIGINT keys as Nat, DECIMAL(10,2) as an integer number of
cents, TIMESTAMP as Nat, nullable VARCHAR columns as Option String). -/

/-- Row of the stores table. -/
structure StoreRow where
  store_id : Nat
  name : String
  city : String
  state : String
deriving DecidableEq

/-- Row of the gpus table (brand and manufacturer are nullable). -/
structure GpuRow where
  gpu_id : Nat
  brand : Option String
  model_name : String
  manufacturer : Option String
  full_name : String
deriving DecidableEq

/-- Row of the products table, linking a GPU to a Store by foreign keys. -/
structure ProductRow where
  product_id : Nat
  store_id : Nat
  gpu_id : Nat
  microcenter_sku : String
  product_url : Option String
  last_seen_image_url : Option String
deriving DecidableEq

/-- Row of the price_history log table. -/
structure PriceHistoryRow where
  history_id : Nat
  product_id : Nat
  price_usd : Int
  stock_status : String
  scraped_at : Nat
deriving DecidableEq

/-- Database state: the contents of the four tables. -/
structure DB where
  stores : List StoreRow
  gpus : List GpuRow
  products : List ProductRow
  price_history : List PriceHistoryRow
deriving DecidableEq

/-- The empty database created by the DDL. -/
def initDB : DB := ⟨[], [], [], []⟩

/-- Insert into stores.  A row violating the primary key or the
idx_store_location unique index (name, city, state) is absorbed (the upsert
path reuses the existing row), leaving the database unchanged. -/
def insertStore (db : DB) (s : StoreRow) : DB :=
  if db.stores.any (fun r => r.store_id == s.store_id) ||
     db.stores.any (fun r =>
       r.name == s.name && r.city == s.city && r.state == s.state) then db
  else { db with stores := db.stores ++ [s] }

/-- Insert into gpus, absorbing primary-key or idx_full_name violations. -/
def insertGpu (db : DB) (g : GpuRow) : DB :=
  if db.gpus.any (fun r => r.gpu_id == g.gpu_id) ||
     db.gpus.any (fun r => r.full_name == g.full_name) then db
  else { db with gpus := db.gpus ++ [g] }

/-- Insert into products.  Primary-key or idx_sku violations are absorbed;
the foreign keys fk_products_stores and fk_products_gpus require the
referenced store and gpu rows to exist, otherwise the insert is rejected as
a no-op. -/
def insertProduct (db : DB) (p : ProductRow) : DB :=
  if db.products.any (fun r => r.product_id == p.product_id) ||
     db.products.any (fun r => r.microcenter_sku == p.microcenter_sku) then db
  else if db.stores.any (fun r => r.store_id == p.store_id) &&
          db.gpus.any (fun r => r.gpu_id == p.gpu_id) then
    { db with products := db.products ++ [p] }
  else db

/-- Insert into price_history.  The foreign key fk_price_history_products
requires the referenced product row to exist. -/
def insertPriceHistory (db : DB) (h : PriceHistoryRow) : DB :=
  if db.price_history.any (fun r => r.history_id == h.history_id) then db
  else if db.products.any (fun r => r.product_id == h.product_id) then
    { db with price_history := db.price_history ++ [h] }
  else db

/-- Delete from stores.  fk_products_stores is declared ON DELETE RESTRICT:
the deletion fails (none) while any product references the store. -/
def deleteStore (db : DB) (sid : Nat) : Option DB :=
  if db.products.any (fun p => p.store_id == sid) then none
  else some { db with stores := db.stores.filter (fun r => r.store_id != sid) }

/-- Delete from gpus.  fk_products_gpus is declared ON DELETE RESTRICT. -/
def deleteGpu (db : DB) (gid : Nat) : Option DB :=
  if db.products.any (fun p => p.gpu_id == gid) then none
  else some { db with gpus := db.gpus.filter (fun r => r.gpu_id != gid) }

/-- Delete from products.  fk_price_history_products is declared
ON DELETE CASCADE: deleting a product also deletes every price_history row
that references it. -/
def deleteProduct (db : DB) (pid : Nat) : DB :=
  { db with
      products := db.products.filter (fun p => p.product_id != pid),
      price_history := db.price_history.filter (fun h => h.product_id != pid) }

/-- The operations a client can run against the schema. -/
inductive DBOp
  | insertStore (s : StoreRow)
  | insertGpu (g : GpuRow)
  | insertProduct (p : ProductRow)
  | insertPriceHistory (h : PriceHistoryRow)
  | deleteStore (store_id : Nat)
  | deleteGpu (gpu_id : Nat)
  | deleteProduct (product_id : Nat)
deriving DecidableEq

/-- Apply one operation; a rejected deletion leaves the database unchanged. -/
def applyOp (db : DB) : DBOp → DB
  | .insertStore s => insertStore db s
  | .insertGpu g => insertGpu db g
  | .insertProduct p => insertProduct db p
  | .insertPriceHistory h => insertPriceHistory db h
  | .deleteStore sid => (deleteStore db sid).getD db
  | .deleteGpu gid => (deleteGpu db gid).getD db
  | .deleteProduct pid => deleteProduct db pid

/-- Apply a sequence of operations from left to right. -/
def applyOps (db : DB) (ops : List DBOp) : DB :=
  ops.foldl applyOp db

/-- Referential integrity of the history log: every price_history row
references an existing product. -/
def historyOK (db : DB) : Prop :=
  ∀ h ∈ db.price_history, ∃ p ∈ db.products, p.product_id = h.product_id

end Schema

namespace Controller

/-! ## Scrape Job Controller

Modelled from the spec: the server-side Scrape Job Controller (the Python
server file is not part of the repository snapshot; only the schema and the
front-end are).  Per the spec it is a single global Idle/Running flag plus a
retained completion message: a trigger while Running is rejected with an
"already in progress" report and changes nothing; a trigger while Idle
switches the flag to Running and returns immediately, without waiting for
the scrape outcome; on completion the flag returns to Idle and the
completion message is stored for the next status read.  The activeJobs
counter counts scrape jobs currently executing, so that mutual exclusion is
an observable fact rather than a definition. -/

/-- Controller state: the Idle/Running flag, the retained message, and the
number of scrape jobs currently executing. -/
structure JobState where
  is_scraping : Bool
  message : String
  activeJobs : Nat
deriving DecidableEq

/-- Initial controller state: Idle, no message, no job running. -/
def initJobState : JobState := ⟨false, "", 0⟩

/-- Reply returned immediately to the HTTP caller of the scrape trigger. -/
inductive TriggerReply
  | started (message : String)
  | alreadyInProgress (message : String)
deriving DecidableEq

/-- Modelled from the spec: handling of a scrape-trigger request.  While
Running the request is rejected and the state (including the retained
message) is untouched; while Idle the state becomes Running, one job starts,
and the caller gets an immediate "started" reply that does not depend on the
eventual scrape outcome. -/
def startScrapeJob (s : JobState) : JobState × TriggerReply :=
  if s.is_scraping then
    (s, .alreadyInProgress "already in progress")
  else
    ({ is_scraping := true, message := s.message, activeJobs := s.activeJobs + 1 },
     .started "started")

/-- Modelled from the spec: completion of the running scrape job (success or
failure alike) returns the state to Idle and retains the completion
message. -/
def finishScrapeJob (s : JobState) (msg : String) : JobState :=
  if s.is_scraping then
    { is_scraping := false, message := msg, activeJobs := s.activeJobs - 1 }
  else s

/-- Events observed by the controller: trigger requests and job completions. -/
inductive JobEvent
  | trigger
  | finish (msg : String)
deriving DecidableEq

/-- State transition for one event. -/
def applyJobEvent (s : JobState) : JobEvent → JobState
  | .trigger => (startScrapeJob s).1
  | .finish msg => finishScrapeJob s msg

/-- Controller state after a sequence of events from process start. -/
def runJobEvents (evs : List JobEvent) : JobState :=
  evs.foldl applyJobEvent initJobState

/-- Inductive invariant tying the Running flag to the job count. -/
def jobInv (s : JobState) : Prop :=
  s.activeJobs = if s.is_scraping then 1 else 0

end Controller

namespace Frontend

/-! ## Front-end (src/frontend/app.js, the script with scrape controls)

One element of the JSON array served by GET /api/gpus.  model_name is a
plain string (the column is NOT NULL and the filter dereferences it without
a guard); the remaining text fields are nullable and are modelled as
Option String. -/

structure GPURow where
  product_id : Nat
  brand : Option String
  model_name : String
  store_name : Option String
  price_usd : Option String
  stock_status : Option String
  product_url : Option String
  last_seen_image_url : Option String
  scraped_at : Option String
deriving DecidableEq

/-- Translation of filterGPUs: the pure core mapping the full fetched list
plus the three filter control values (search text, brand selection, store
selection) to the visible list.  The search input is lowercased, a row
matches when its lowercased model_name contains the search term, its brand
(defaulted to Unknown) uppercases to the selected brand unless the selection
is all, and its store_name (defaulted to Unknown) equals the selected store
unless the selection is all. -/
def filterGPUs (allGPUs : List GPURow)
    (searchInput selectedBrand selectedStore : String) : List GPURow :=
  let searchTerm := jsToLower searchInput
  allGPUs.filter fun gpu =>
    let nameMatch := jsIncludes (jsToLower gpu.model_name) searchTerm
    let gpuBrand := jsToUpper (jsOr gpu.brand "Unknown")
    let brandMatch := selectedBrand == "all" || gpuBrand == selectedBrand
    let gpuStore := jsOr gpu.store_name "Unknown"
    let storeMatch := selectedStore == "all" || gpuStore == selectedStore
    nameMatch && brandMatch && storeMatch

/-- The set of brand option values built by populateFilters: uppercased
brands of rows whose brand is truthy and not the literal Unknown
(deduplicated; the alphabetical sort of the option list is irrelevant to
membership and selection and is omitted). -/
def brandSet (gpus : List GPURow) : List String :=
  (gpus.filterMap fun gpu =>
    match gpu.brand with
    | some b => if b != "" && b != "Unknown" then some (jsToUpper b) else none
    | none => none).dedup

/-- The set of store option values built by populateFilters: store names of
rows whose store_name is truthy (deduplicated). -/
def storeSet (gpus : List GPURow) : List String :=
  (gpus.filterMap fun gpu =>
    match gpu.store_name with
    | some s => if s != "" then some s else none
    | none => none).dedup

/-- Resulting state of the two filter select controls. -/
structure FilterControls where
  brandValue : String
  storeValue : String
  brandOpts : List String
  storeOpts : List String
deriving DecidableEq

/-- Translation of populateFilters: the current select values are saved,
the option lists are rebuilt from the fetched rows with All as the first
option (rebuilding the options resets a select to its first option, all),
and the saved value is restored exactly when it is all or still occurs in
the freshly built option set. -/
def populateFilters (gpus : List GPURow)
    (currentBrand currentStore : String) : FilterControls :=
  let brands := brandSet gpus
  let stores := storeSet gpus
  { brandValue :=
      if brands.contains currentBrand || currentBrand == "all" then currentBrand
      else "all"
    storeValue :=
      if stores.contains currentStore || currentStore == "all" then currentStore
      else "all"
    brandOpts := "all" :: brands
    storeOpts := "all" :: stores }

/-- The placeholder image used when a row has no usable image URL. -/
def PLACEHOLDER_URL : String := "https://placehold.co/200x200?text=No+Image"

/-- The image-fallback test of renderGPUs: the stored URL is falsy
(absent or empty), is the literal N/A, or contains noimageproduct.gif. -/
def noImage : Option String → Bool
  | none => true
  | some u => u == "" || u == "N/A" || jsIncludes u "noimageproduct.gif"

/-- The data shown on one rendered card. -/
structure Card where
  imageUrl : String
  brand : String
  storeName : String
  modelName : String
  price : String
  stockStatus : String
  stockClass : String
  productUrl : String
  productId : Nat
deriving DecidableEq

/-- Translation of the per-row card construction inside renderGPUs: a pure
(stateless) mapping from one GPU-view row to the displayed card, with the
fallbacks of the source (brand to Unknown, model name to Unknown Model,
stock status to Unknown, price to 0.00, product URL to a hash link, image
URL to the placeholder when noImage holds). -/
def renderCard (gpu : GPURow) : Card :=
  let stockStatus := jsOr gpu.stock_status "Unknown"
  let stockClass :=
    if jsIncludes (jsToUpper stockStatus) "IN STOCK" then "stock-in"
    else "stock-out"
  let imageUrl :=
    match gpu.last_seen_image_url with
    | none => PLACEHOLDER_URL
    | some u => if noImage (some u) then PLACEHOLDER_URL else u
  { imageUrl := imageUrl
    brand := jsOr gpu.brand "Unknown"
    storeName := jsOr gpu.store_name "Unknown Store"
    modelName := if gpu.model_name == "" then "Unknown Model" else gpu.model_name
    price := jsOr gpu.price_usd "0.00"
    stockStatus := stockStatus
    stockClass := stockClass
    productUrl := jsOr gpu.product_url "#"
    productId := gpu.product_id }

/-- State of the gpu-grid element after renderGPUs runs. -/
inductive Grid
  | emptyState
  | cards (cards : List Card)
deriving DecidableEq

/-- Translation of renderGPUs.  The input is none when the response is not
an array.  A non-array or empty input leaves only the empty-state message.
Otherwise each row is rendered inside a per-row try/catch: the renderer
argument abstracts that try block (renderCard gives its result on rows whose
rendering succeeds; returning none models a thrown exception), a failing row
is skipped and the remaining rows are still appended. -/
def renderGPUs (render : GPURow → Option Card) (gpus : Option (List GPURow)) :
    Grid :=
  match gpus with
  | none => .emptyState
  | some [] => .emptyState
  | some l => .cards (l.filterMap render)

/-- JSON body of the POST /api/scrape response together with its HTTP
status code. -/
structure ScrapeHTTPResponse where
  status : Nat
  message : Option String
  error : Option String
deriving DecidableEq

/-- The Fetch API response.ok test: status in the 200 to 299 range. -/
def respOk (r : ScrapeHTTPResponse) : Bool :=
  decide (200 ≤ r.status) && decide (r.status ≤ 299)

/-- Observable outcome of triggerScrape: the status line text (none models
displaying undefined), its colour, whether polling was started, and whether
the trigger button was re-enabled. -/
structure TriggerScrapeOutcome where
  statusText : Option String
  color : String
  pollingStarted : Bool
  buttonReenabled : Bool
deriving DecidableEq

/-- Translation of the response handling in triggerScrape: an ok or 409
response displays data.message || data.error and starts polling with the
button left disabled (green for ok, orange for 409); any other status enters
the error path, which paints the message red and re-enables the button
without polling. -/
def triggerScrape (r : ScrapeHTTPResponse) : TriggerScrapeOutcome :=
  if respOk r || r.status == 409 then
    { statusText := jsOrElse r.message r.error
      color := if respOk r then "green" else "orange"
      pollingStarted := true
      buttonReenabled := false }
  else
    { statusText := some ("Error: " ++ (match r.error with
        | some e => e
        | none => "undefined"))
      color := "red"
      pollingStarted := false
      buttonReenabled := true }

/-- Observable outcome of fetchGPUs: the new value of the allGPUs global
and the rendered list when the fetch succeeded, and whether the connection
error panel replaced the grid. -/
structure FetchGPUsOutcome where
  newAllGPUs : Option (List GPURow)
  renderedList : Option (List GPURow)
  connectionErrorShown : Bool
deriving DecidableEq

/-- Translation of fetchGPUs: the result argument is some data for a
successful fetch and none when the fetch or JSON decoding threw (API
unreachable).  On success the global list is replaced, filters repopulated
and the grid re-rendered; on failure the catch block shows the Connection
Error panel only when the call is not a background polling refresh. -/
def fetchGPUs (isPolling : Bool) (result : Option (List GPURow)) :
    FetchGPUsOutcome :=
  match result with
  | some data =>
    { newAllGPUs := some data, renderedList := some data,
      connectionErrorShown := false }
  | none =>
    { newAllGPUs := none, renderedList := none,
      connectionErrorShown := !isPolling }

/-- One response of GET /api/status as observed by a poll tick. -/
structure StatusObs where
  is_scraping : Bool
  message : String
deriving DecidableEq

/-- What one tick of the polling interval did. -/
structure PollTick where
  time : Nat
  fetchedStatus : Bool
  fetchedGPUs : Bool
  stopped : Bool
deriving DecidableEq

/-- The polling interval of startPolling: setInterval with 5000 ms, i.e.
five of the one-second time units of the spec. -/
def pollIntervalUnits : Nat := 5

/-- Translation of startPolling as the trace of poll ticks, driven by the
successive status responses the server would return.  The first tick fires
one interval after start time t.  Each tick fetches the status endpoint;
while is_scraping it also quietly re-fetches the GPU list and the interval
keeps running; on the first tick observing Idle the interval is cancelled
(stopped) after one final GPU-list refresh, and no further tick occurs. -/
def startPolling (t : Nat) : List StatusObs → List PollTick
  | [] => []
  | s :: rest =>
    if s.is_scraping then
      { time := t + pollIntervalUnits, fetchedStatus := true,
        fetchedGPUs := true, stopped := false } ::
        startPolling (t + pollIntervalUnits) rest
    else
      [{ time := t + pollIntervalUnits, fetchedStatus := true,
         fetchedGPUs := true, stopped := true }]

end Frontend

/-! ## Concrete fixtures used by witnesses and counterexamples -/

/-- Status sequence observed by a polling run: two Running reads then Idle. -/
def c2obs : List Frontend.StatusObs :=
  [⟨true, "Scraping"⟩, ⟨true, "Scraping"⟩, ⟨false, "Scrape complete"⟩]

/-- Three GPU-view rows across two stores and two brands. -/
def c3rows : List Frontend.GPURow :=
  [⟨1, some "Nvidia", "GeForce RTX 4090", some "Tustin", some "1999.99",
      some "In Stock", none, none, none⟩,
   ⟨2, some "AMD", "Radeon RX 7900 XTX", some "Tustin", some "899.99",
      some "Sold Out", none, none, none⟩,
   ⟨3, some "NVIDIA", "GeForce RTX 4090 SUPRIM", some "Dallas", some "2099.99",
      some "In Stock", none, none, none⟩]

/-- Database with one store, one gpu, one product referencing the store. -/
def c4db : Schema.DB :=
  ⟨[⟨1, "Tustin", "Tustin", "CA"⟩],
   [⟨1, some "NVIDIA", "GeForce RTX 4090", some "ASUS", "ASUS GeForce RTX 4090"⟩],
   [⟨1, 1, 1, "SKU123", none, none⟩],
   []⟩

/-- One price-history row for product 1. -/
def c5row : Schema.PriceHistoryRow := ⟨1, 1, 199999, "In Stock", 100⟩

/-- Database with one product and one history row referencing it. -/
def c5db : Schema.DB :=
  ⟨[⟨1, "Tustin", "Tustin", "CA"⟩],
   [⟨1, some "NVIDIA", "GeForce RTX 4090", some "ASUS", "ASUS GeForce RTX 4090"⟩],
   [⟨1, 1, 1, "SKU123", none, none⟩],
   [c5row]⟩

/-- A GPU-view row with every nullable field absent and an empty model name. -/
def c6row : Frontend.GPURow := ⟨7, none, "", none, none, none, none, none, none⟩

/-- Rows whose brand set is NVIDIA/AMD and whose store set is Tustin/Dallas. -/
def c9rows : List Frontend.GPURow := c3rows

/-- Rows for the rendering-isolation witness, with product ids 0, 1, 2. -/
def c10rows : List Frontend.GPURow :=
  [⟨0, some "NVIDIA", "GeForce RTX 4080", some "Tustin", some "999.99",
      some "In Stock", none, none, none⟩,
   ⟨1, some "AMD", "Radeon RX 7800 XT", some "Tustin", some "499.99",
      some "In Stock", none, none, none⟩,
   ⟨2, some "Intel", "Arc B580", some "Dallas", some "249.99",
      some "Sold Out", none, none, none⟩]

/-- Per-row renderer that throws exactly on the row with product id 1. -/
def c10render : Frontend.GPURow → Option Frontend.Card :=
  fun g => if g.product_id == 1 then none else some (Frontend.renderCard g)

/-! ## Helper lemmas -/

/-- A falsy nullable string falls back to the default under jsOr. -/
theorem jsOr_falsy (v : Option String) (d : String) (h : jsFalsy v = true) :
    jsOr v d = d := by
  cases v with
  | none => rfl
  | some s =>
    simp only [jsFalsy] at h
    simp [jsOr, h]

/-- The controller invariant holds initially. -/
theorem jobInv_init : Controller.jobInv Controller.initJobState := rfl

/-- The controller invariant is preserved by every event. -/
theorem jobInv_step (s : Controller.JobState) (h : Controller.jobInv s)
    (e : Controller.JobEvent) : Controller.jobInv (Controller.applyJobEvent s e) := by
  cases e with
  | trigger =>
    by_cases hs : s.is_scraping <;>
      simp_all [Controller.applyJobEvent, Controller.startScrapeJob,
        Controller.jobInv]
  | finish msg =>
    by_cases hs : s.is_scraping <;>
      simp_all [Controller.applyJobEvent, Controller.finishScrapeJob,
        Controller.jobInv]

/-- The controller invariant holds after any event sequence. -/
theorem jobInv_run (evs : List Controller.JobEvent) :
    Controller.jobInv (Controller.runJobEvents evs) := by
  suffices h : ∀ s, Controller.jobInv s →
      Controller.jobInv (evs.foldl Controller.applyJobEvent s) from
    h Controller.initJobState jobInv_init
  induction evs with
  | nil => exact fun s hs => hs
  | cons e rest ih => exact fun s hs => ih _ (jobInv_step s hs e)

/-- Referential integrity of the history log survives one operation. -/
theorem historyOK_step (db : Schema.DB) (op : Schema.DBOp)
    (h : Schema.historyOK db) : Schema.historyOK (Schema.applyOp db op) := by
  cases op with
  | insertStore s =>
    simp only [Schema.applyOp, Schema.insertStore]
    split
    · exact h
    · exact h
  | insertGpu g =>
    simp only [Schema.applyOp, Schema.insertGpu]
    split
    · exact h
    · exact h
  | insertProduct p =>
    simp only [Schema.applyOp, Schema.insertProduct]
    split
    · exact h
    · split
      · intro x hx
        obtain ⟨q, hq, he⟩ := h x hx
        exact ⟨q, List.mem_append_left _ hq, he⟩
      · exact h
  | insertPriceHistory hr =>
    simp only [Schema.applyOp, Schema.insertPriceHistory]
    split
    · exact h
    · split
      · rename_i hfk
        intro x hx
        rcases List.mem_append.mp hx with hx | hx
        · exact h x hx
        · have hx' : x = hr := by simpa using hx
          subst hx'
          obtain ⟨q, hq, he⟩ := List.any_eq_true.mp hfk
          exact ⟨q, hq, by simpa using he⟩
      · exact h
  | deleteStore sid =>
    simp only [Schema.applyOp, Schema.deleteStore]
    split
    · exact h
    · exact h
  | deleteGpu gid =>
    simp only [Schema.applyOp, Schema.deleteGpu]
    split
    · exact h
    · exact h
  | deleteProduct pid =>
    simp only [Schema.applyOp, Schema.deleteProduct]
    intro x hx
    obtain ⟨hmem, hne⟩ := List.mem_filter.mp hx
    obtain ⟨q, hq, he⟩ := h x hmem
    refine ⟨q, List.mem_filter.mpr ⟨hq, ?_⟩, he⟩
    rw [he]
    exact hne

/-- Referential integrity of the history log survives any sequence. -/
theorem historyOK_run (ops : List Schema.DBOp) (db : Schema.DB)
    (h : Schema.historyOK db) : Schema.historyOK (Schema.applyOps db ops) := by
  induction ops generalizing db with
  | nil => exact h
  | cons op rest ih => exact ih _ (historyOK_step db op h)

/-! ## Claims -/

/-- Claim C1: for every sequence of scrape-trigger and completion events, at
most one scrape job is ever running (the activeJobs counter never exceeds
one); a trigger arriving while the controller is Running is rejected with an
already-in-progress report and leaves the whole state, including the
retained completion message, unchanged; a trigger while Idle switches the
state to Running and returns an immediate started reply whose value does not
depend on the eventual scrape outcome. -/
theorem c1_single_scrape_job :
    (∀ evs : List Controller.JobEvent,
        (Controller.runJobEvents evs).activeJobs ≤ 1) ∧
    (∀ s : Controller.JobState, s.is_scraping = true →
        Controller.startScrapeJob s =
          (s, Controller.TriggerReply.alreadyInProgress "already in progress")) ∧
    (∀ s : Controller.JobState, s.is_scraping = false →
        (Controller.startScrapeJob s).1.is_scraping = true ∧
        (Controller.startScrapeJob s).1.message = s.message ∧
        (Controller.startScrapeJob s).2 =
          Controller.TriggerReply.started "started") := by
  refine ⟨?_, ?_, ?_⟩
  · intro evs
    have h := jobInv_run evs
    simp only [Controller.jobInv] at h
    rw [h]
    split <;> omega
  · intro s hs
    simp [Controller.startScrapeJob, hs]
  · intro s hs
    simp [Controller.startScrapeJob, hs]

/-- Witness for C1 at a concrete Running state: the trigger is rejected and
retains the state and message. -/
theorem c1_witness :
    Controller.startScrapeJob ⟨true, "last run ok", 1⟩ =
      (⟨true, "last run ok", 1⟩,
        Controller.TriggerReply.alreadyInProgress "already in progress") :=
  c1_single_scrape_job.2.1 ⟨true, "last run ok", 1⟩ rfl

/-- Claim C4: deleting a store that still has a referencing product row is
rejected by the RESTRICT foreign key and the database is unchanged; a store
with no referencing products is deleted, with every other table intact. -/
theorem c4_delete_store_restrict (db : Schema.DB) (sid : Nat) :
    ((∃ p ∈ db.products, p.store_id = sid) →
        Schema.deleteStore db sid = none ∧
        Schema.applyOp db (Schema.DBOp.deleteStore sid) = db) ∧
    ((∀ p ∈ db.products, p.store_id ≠ sid) →
        ∃ db2, Schema.deleteStore db sid = some db2 ∧
          Schema.applyOp db (Schema.DBOp.deleteStore sid) = db2 ∧
          db2.stores = db.stores.filter (fun r => r.store_id != sid) ∧
          db2.gpus = db.gpus ∧ db2.products = db.products ∧
          db2.price_history = db.price_history) := by
  constructor
  · rintro ⟨p, hp, he⟩
    have hc : db.products.any (fun p => p.store_id == sid) = true :=
      List.any_eq_true.mpr ⟨p, hp, by simp [he]⟩
    simp [Schema.deleteStore, Schema.applyOp, hc]
  · intro hnone
    have hc : db.products.any (fun p => p.store_id == sid) = false := by
      rw [List.any_eq_false]
      intro p hp
      simpa using hnone p hp
    refine ⟨{ db with stores := db.stores.filter (fun r => r.store_id != sid) },
      ?_, ?_, rfl, rfl, rfl, rfl⟩
    · simp [Schema.deleteStore, hc]
    · simp [Schema.applyOp, Schema.deleteStore, hc]

/-- Witness for C4: deleting store 1 while product 1 references it fails and
leaves the database unchanged. -/
theorem c4_witness :
    Schema.deleteStore c4db 1 = none ∧
      Schema.applyOp c4db (Schema.DBOp.deleteStore 1) = c4db :=
  (c4_delete_store_restrict c4db 1).1 ⟨⟨1, 1, 1, "SKU123", none, none⟩, by decide, rfl⟩

/-- Claim C5: deleting a product cascades to exactly its price-history rows;
after any sequence of operations from the empty database every history row
references an existing product; and no operation other than a product
deletion (with the cascading store deletion blocked by RESTRICT) ever
removes a history row. -/
theorem c5_history_cascade_no_orphans :
    (∀ (db : Schema.DB) (pid : Nat),
        (Schema.deleteProduct db pid).price_history =
          db.price_history.filter (fun hr => hr.product_id != pid)) ∧
    (∀ ops : List Schema.DBOp,
        Schema.historyOK (Schema.applyOps Schema.initDB ops)) ∧
    (∀ (db : Schema.DB) (op : Schema.DBOp) (hr : Schema.PriceHistoryRow),
        hr ∈ db.price_history → hr ∉ (Schema.applyOp db op).price_history →
        ∃ pid, op = Schema.DBOp.deleteProduct pid ∧ hr.product_id = pid) := by
  refine ⟨fun db pid => rfl, ?_, ?_⟩
  · intro ops
    exact historyOK_run ops Schema.initDB (fun h hmem => absurd hmem (by simp [Schema.initDB]))
  · intro db op hr hmem hnot
    cases op with
    | insertStore s =>
      exfalso
      apply hnot
      simp only [Schema.applyOp, Schema.insertStore]
      split
      · exact hmem
      · exact hmem
    | insertGpu g =>
      exfalso
      apply hnot
      simp only [Schema.applyOp, Schema.insertGpu]
      split
      · exact hmem
      · exact hmem
    | insertProduct p =>
      exfalso
      apply hnot
      simp only [Schema.applyOp, Schema.insertProduct]
      split
      · exact hmem
      · split
        · exact hmem
        · exact hmem
    | insertPriceHistory h2 =>
      exfalso
      apply hnot
      simp only [Schema.applyOp, Schema.insertPriceHistory]
      split
      · exact hmem
      · split
        · exact List.mem_append_left _ hmem
        · exact hmem
    | deleteStore sid =>
      exfalso
      apply hnot
      simp only [Schema.applyOp, Schema.deleteStore]
      split
      · exact hmem
      · exact hmem
    | deleteGpu gid =>
      exfalso
      apply hnot
      simp only [Schema.applyOp, Schema.deleteGpu]
      split
      · exact hmem
      · exact hmem
    | deleteProduct pid =>
      refine ⟨pid, rfl, ?_⟩
      by_contra hne
      apply hnot
      simp only [Schema.applyOp, Schema.deleteProduct]
      exact List.mem_filter.mpr ⟨hmem, by simpa using hne⟩

/-- Witness for C5: in the concrete database the history row for product 1
disappears exactly because the operation is the deletion of product 1. -/
theorem c5_witness :
    ∃ pid, Schema.DBOp.deleteProduct 1 = Schema.DBOp.deleteProduct pid ∧
      c5row.product_id = pid :=
  c5_history_cascade_no_orphans.2.2 c5db (Schema.DBOp.deleteProduct 1) c5row
    (by decide) (by decide)

/-- Claim C3: the client filter is a pure function of the full fetched list
and the three filter inputs.  With search 4090, brand NVIDIA and the store
selection at all, it returns exactly the rows whose brand (defaulted to
Unknown) uppercases to NVIDIA and whose lowercased model name contains 4090;
with any concrete store selection it additionally requires the store name to
match exactly. -/
theorem c3_filter_nvidia_4090 (gpus : List Frontend.GPURow) :
    (Frontend.filterGPUs gpus "4090" "NVIDIA" "all" =
        gpus.filter (fun g =>
          jsIncludes (jsToLower g.model_name) "4090" &&
          jsToUpper (jsOr g.brand "Unknown") == "NVIDIA")) ∧
    (∀ sel : String, sel ≠ "all" →
        Frontend.filterGPUs gpus "4090" "NVIDIA" sel =
          gpus.filter (fun g =>
            jsIncludes (jsToLower g.model_name) "4090" &&
            (jsToUpper (jsOr g.brand "Unknown") == "NVIDIA" &&
             jsOr g.store_name "Unknown" == sel))) := by
  have hlow : jsToLower "4090" = "4090" := rfl
  have hnv : (("NVIDIA" : String) == "all") = false := rfl
  constructor
  · simp only [Frontend.filterGPUs, hlow]
    refine List.filter_congr (fun g hg => ?_)
    simp [hnv]
  · intro sel hsel
    have hsel2 : (sel == "all") = false := by
      simp [hsel]
    simp only [Frontend.filterGPUs, hlow]
    refine List.filter_congr (fun g hg => ?_)
    simp [hnv, hsel2, Bool.and_assoc]

/-- Witness for C3 at a concrete store selection and row list. -/
theorem c3_witness :
    Frontend.filterGPUs c3rows "4090" "NVIDIA" "Tustin" =
      c3rows.filter (fun g =>
        jsIncludes (jsToLower g.model_name) "4090" &&
        (jsToUpper (jsOr g.brand "Unknown") == "NVIDIA" &&
         jsOr g.store_name "Unknown" == "Tustin")) :=
  (c3_filter_nvidia_4090 c3rows).2 "Tustin" (by decide)

/-- Counterexample for C6 as stated: on a row with a missing price the
rendered card shows 0.00, which is not an Unknown placeholder (the rendered
price does not even contain the text Unknown). -/
theorem c6_counterexample :
    (Frontend.renderCard c6row).price = "0.00" ∧
      jsIncludes (Frontend.renderCard c6row).price "Unknown" = false := by
  constructor
  · rfl
  · rfl

/-- Claim C6 (amended): rendering is a stateless row-to-card mapping; a
missing or empty brand renders Unknown, a missing model name renders
Unknown Model, a missing stock status renders Unknown, a missing price
renders the 0.00 placeholder (not an Unknown text), and the image URL is
replaced by the placeholder image exactly when the stored URL is absent,
empty, the literal N/A, or a vendor no-image marker. -/
theorem c6_render_fallbacks (gpu : Frontend.GPURow) :
    (jsFalsy gpu.brand = true → (Frontend.renderCard gpu).brand = "Unknown") ∧
    (gpu.model_name = "" →
        (Frontend.renderCard gpu).modelName = "Unknown Model") ∧
    (jsFalsy gpu.stock_status = true →
        (Frontend.renderCard gpu).stockStatus = "Unknown") ∧
    (jsFalsy gpu.price_usd = true →
        (Frontend.renderCard gpu).price = "0.00") ∧
    (Frontend.noImage gpu.last_seen_image_url = true →
        (Frontend.renderCard gpu).imageUrl = Frontend.PLACEHOLDER_URL) ∧
    (∀ u, gpu.last_seen_image_url = some u →
        Frontend.noImage (some u) = false →
        (Frontend.renderCard gpu).imageUrl = u) := by
  refine ⟨?_, ?_, ?_, ?_, ?_, ?_⟩
  · intro h
    simp [Frontend.renderCard, jsOr_falsy _ _ h]
  · intro h
    simp [Frontend.renderCard, h]
  · intro h
    simp [Frontend.renderCard, jsOr_falsy _ _ h]
  · intro h
    simp [Frontend.renderCard, jsOr_falsy _ _ h]
  · intro h
    cases hu : gpu.last_seen_image_url with
    | none => simp [Frontend.renderCard, hu]
    | some u =>
      rw [hu] at h
      simp [Frontend.renderCard, hu, h]
  · intro u hu h
    simp [Frontend.renderCard, hu, h]

/-- Witness for C6 at the all-missing row: brand, model and stock render
their Unknown placeholders, the price renders 0.00, and the image falls back
to the placeholder URL. -/
theorem c6_witness :
    (Frontend.renderCard c6row).brand = "Unknown" ∧
    (Frontend.renderCard c6row).modelName = "Unknown Model" ∧
    (Frontend.renderCard c6row).stockStatus = "Unknown" ∧
    (Frontend.renderCard c6row).price = "0.00" ∧
    (Frontend.renderCard c6row).imageUrl = Frontend.PLACEHOLDER_URL :=
  ⟨(c6_render_fallbacks c6row).1 rfl,
   (c6_render_fallbacks c6row).2.1 rfl,
   (c6_render_fallbacks c6row).2.2.1 rfl,
   (c6_render_fallbacks c6row).2.2.2.1 rfl,
   (c6_render_fallbacks c6row).2.2.2.2.1 rfl⟩

/-- Claim C7: a 409 response to the scrape trigger is handled on the
non-error path, identically to a 200 response in every observable of that
path: the returned message (data.message falling back to data.error) is
displayed, polling starts, and the trigger button is not re-enabled. -/
theorem c7_409_nonfatal (m e : Option String) :
    (Frontend.triggerScrape ⟨409, m, e⟩).pollingStarted = true ∧
    (Frontend.triggerScrape ⟨409, m, e⟩).buttonReenabled = false ∧
    (Frontend.triggerScrape ⟨409, m, e⟩).statusText = jsOrElse m e ∧
    (Frontend.triggerScrape ⟨409, m, e⟩).pollingStarted =
      (Frontend.triggerScrape ⟨200, m, e⟩).pollingStarted ∧
    (Frontend.triggerScrape ⟨409, m, e⟩).buttonReenabled =
      (Frontend.triggerScrape ⟨200, m, e⟩).buttonReenabled ∧
    (Frontend.triggerScrape ⟨409, m, e⟩).statusText =
      (Frontend.triggerScrape ⟨200, m, e⟩).statusText :=
  ⟨rfl, rfl, rfl, rfl, rfl, rfl⟩

/-- Counterexample for C8 as stated: a failing GPU-list fetch issued by the
background poll does not show the connection error panel. -/
theorem c8_counterexample :
    (Frontend.fetchGPUs true none).connectionErrorShown = false := rfl

/-- Claim C8 (amended): the connection error panel is shown exactly when
the GPU-list fetch fails and the call is not a background polling refresh;
the initial and manual fetches (isPolling false) therefore surface every
transport failure as the panel. -/
theorem c8_connection_error_panel (isPolling : Bool)
    (result : Option (List Frontend.GPURow)) :
    (Frontend.fetchGPUs isPolling result).connectionErrorShown =
      (result.isNone && !isPolling) := by
  cases result <;> cases isPolling <;> rfl

/-- Claim C9: repopulating the filter dropdowns from a fresh list keeps the
current selection whenever it is all or still occurs among the new lists
brand/store option sets, so a background refresh does not reset a still
valid selection. -/
theorem c9_filters_preserve_selection (gpus : List Frontend.GPURow)
    (cb cs : String) :
    ((cb = "all" ∨ cb ∈ Frontend.brandSet gpus) →
        (Frontend.populateFilters gpus cb cs).brandValue = cb) ∧
    ((cs = "all" ∨ cs ∈ Frontend.storeSet gpus) →
        (Frontend.populateFilters gpus cb cs).storeValue = cs) := by
  constructor
  · rintro (rfl | hmem)
    · simp [Frontend.populateFilters]
    · simp [Frontend.populateFilters, hmem]
  · rintro (rfl | hmem)
    · simp [Frontend.populateFilters]
    · simp [Frontend.populateFilters, hmem]

/-- Witness for C9: with rows offering NVIDIA/AMD and Tustin/Dallas, the
selections NVIDIA and Tustin survive repopulation. -/
theorem c9_witness :
    (Frontend.populateFilters c9rows "NVIDIA" "Tustin").brandValue = "NVIDIA" ∧
    (Frontend.populateFilters c9rows "NVIDIA" "Tustin").storeValue = "Tustin" :=
  ⟨(c9_filters_preserve_selection c9rows "NVIDIA" "Tustin").1 (Or.inr (by decide)),
   (c9_filters_preserve_selection c9rows "NVIDIA" "Tustin").2 (Or.inr (by decide))⟩

/-- Claim C10: rendering is total and isolates per-row failures: a
non-array input and an empty list both leave only the empty-state message
and no cards; for a non-empty list the grid consists of the cards of
exactly the rows whose rendering succeeds, so a row whose rendering throws
is skipped while every successfully rendered row still appears. -/
theorem c10_render_isolation (render : Frontend.GPURow → Option Frontend.Card)
    (gpus : List Frontend.GPURow) (hne : gpus ≠ []) :
    Frontend.renderGPUs render none = Frontend.Grid.emptyState ∧
    Frontend.renderGPUs render (some []) = Frontend.Grid.emptyState ∧
    Frontend.renderGPUs render (some gpus) =
      Frontend.Grid.cards (gpus.filterMap render) ∧
    (∀ g ∈ gpus, ∀ c, render g = some c → c ∈ gpus.filterMap render) := by
  refine ⟨rfl, rfl, ?_, ?_⟩
  · cases gpus with
    | nil => exact absurd rfl hne
    | cons a l => rfl
  · intro g hg c hc
    exact List.mem_filterMap.mpr ⟨g, hg, hc⟩

/-- Witness for C10: with a renderer that throws on the middle row, the
grid still renders, the failing row is skipped, and the two surviving rows
are rendered. -/
theorem c10_witness :
    Frontend.renderGPUs c10render (some c10rows) =
      Frontend.Grid.cards (c10rows.filterMap c10render) ∧
    (c10rows.filterMap c10render).length = 2 :=
  ⟨(c10_render_isolation c10render c10rows (by decide)).2.2.1, by decide⟩

/-- Claim C2: when the status responses read Running for the first k ticks
and Idle at tick k, the polling trace is exactly k + 1 ticks, one every
pollIntervalUnits = 5 time units after start time t (tick i fires at
t + (i + 1) * 5); every tick fetches the status endpoint and re-fetches the
GPU list, including one final refresh at the tick that first observes Idle;
only that last tick cancels the interval (stopped), and no tick occurs after
it. -/
theorem c2_polling_schedule (t : Nat) (obs : List Frontend.StatusObs)
    (k : Nat) (hk : k < obs.length)
    (hidle : (obs.getD k ⟨true, ""⟩).is_scraping = false)
    (hbefore : ∀ j, j < k → (obs.getD j ⟨true, ""⟩).is_scraping = true) :
    Frontend.startPolling t obs = (List.range (k + 1)).map (fun i =>
      { time := t + (i + 1) * Frontend.pollIntervalUnits,
        fetchedStatus := true, fetchedGPUs := true,
        stopped := i == k }) := by
  induction obs generalizing t k with
  | nil => exact absurd hk (Nat.not_lt_zero k)
  | cons s rest ih =>
    cases k with
    | zero =>
      have hs : s.is_scraping = false := hidle
      simp [Frontend.startPolling, hs, List.range_succ]
    | succ k =>
      have hs : s.is_scraping = true := hbefore 0 (Nat.succ_pos k)
      have hk2 : k < rest.length := Nat.lt_of_succ_lt_succ hk
      have hidle2 : (rest.getD k ⟨true, ""⟩).is_scraping = false := hidle
      have hbefore2 : ∀ j, j < k → (rest.getD j ⟨true, ""⟩).is_scraping = true :=
        fun j hj => hbefore (j + 1) (Nat.succ_lt_succ hj)
      simp only [Frontend.startPolling, hs, if_pos]
      rw [ih (t + Frontend.pollIntervalUnits) k hk2 hidle2 hbefore2]
      conv_rhs => rw [List.range_succ_eq_map, List.map_cons, List.map_map]
      congr 1
      refine List.map_congr_left (fun i hi => ?_)
      simp only [Function.comp_apply]
      rw [Frontend.PollTick.mk.injEq]
      refine ⟨?_, rfl, rfl, by simp [Nat.succ_eq_add_one]⟩
      rw [Nat.succ_eq_add_one]
      ring

/-- Witness for C2: with two Running reads followed by Idle, the trace is
three ticks at times 5, 10, 15, each fetching status and GPUs, and only the
third (the first to observe Idle) cancels the interval. -/
theorem c2_witness :
    Frontend.startPolling 0 c2obs = (List.range 3).map (fun i =>
      { time := 0 + (i + 1) * Frontend.pollIntervalUnits,
        fetchedStatus := true, fetchedGPUs := true,
        stopped := i == 2 }) :=
  c2_polling_schedule 0 c2obs 2 (by decide) (by decide)
    (by decide)
